import Mathlib

/-
Verification of the qvm-template-upgrade script (src/qvm-template-upgrade.py).

The script is embedded shallowly: every command string the script builds and
hands to subprocess.run is represented by one constructor of an inductive
command type, carrying exactly the values the script interpolates into that
string.  The external world is an executor oracle mapping a command to the
exit status, stdout and stderr that subprocess.run would report.  Each Python
function of the script becomes a Lean function over that oracle; fallible
Python code (raise / try-except) becomes Except, and a log of issued commands
is threaded through so that claims about which commands were attempted, and
in which order, are statable.
-/

/-- Result of one external command, mirroring the fields of
subprocess.CompletedProcess that run_command reads (returncode, stdout,
stderr). -/
structure ExecResult where
  returncode : Int
  stdout : String
  stderr : String
deriving DecidableEq, Repr

/-- The commands the script issues, one constructor per command string built
in the source, carrying exactly the values interpolated into that string.
In source order:
typeQvmLs           line 134  type qvm-ls
featuresOsDistribution line 49  qvm-features T os-distribution
grepOsReleaseID     line 51  qvm-run -p T grep ID of /etc/os-release, cut
featuresOsVersion   line 60  qvm-features T os-version
grepFedoraRelease   line 62  qvm-run -p T grep digits of /etc/fedora-release
grepVersionCodename line 64  qvm-run -p T grep VERSION_CODENAME, cut
catDebianVersion    line 66  qvm-run -p T cat /etc/debian_version
qvmClone            lines 87, 111  qvm-clone T NEW
qvmStart            lines 91, 115  qvm-start with skip-if-running T
sedSourcesList      line 94  qvm-run -u root T sed OLD to NEW in apt lists
aptFullUpgrade      line 97  qvm-run -p -u root T apt update, full-upgrade,
                    autoremove, clean
fstrim              line 100  qvm-run -u root T fstrim -av
qvmShutdown         lines 103, 119  qvm-shutdown with wait T
dnfDistroSync       line 116  qvm-run -p -u root T dnf clean, distro-sync
                    with releasever N, update, upgrade
qubesPostInstall    line 124  qvm-run -u root T qubes.PostInstall -/
inductive Cmd where
  | typeQvmLs : Cmd
  | featuresOsDistribution (template : String) : Cmd
  | grepOsReleaseID (template : String) : Cmd
  | featuresOsVersion (template : String) : Cmd
  | grepFedoraRelease (template : String) : Cmd
  | grepVersionCodename (template : String) : Cmd
  | catDebianVersion (template : String) : Cmd
  | qvmClone (template new_template_name : String) : Cmd
  | qvmStart (template : String) : Cmd
  | sedSourcesList (template old_name new_name : String) : Cmd
  | aptFullUpgrade (template : String) : Cmd
  | fstrim (template : String) : Cmd
  | qvmShutdown (template : String) : Cmd
  | dnfDistroSync (template : String) (releasever : Int) : Cmd
  | qubesPostInstall (template : String) : Cmd
deriving DecidableEq, Repr

/-- The external command interface: what subprocess.run would report for each
command the script could issue. -/
def Executor : Type := Cmd → ExecResult

/-- The exception kinds the script raises: ValueError (raised by the script
itself and by int on a bad literal) and RuntimeError (raised by run_command
on a non-zero exit status).  main catches both generically. -/
inductive Err where
  | valueError (msg : String) : Err
  | runtimeError (msg : String) : Err
deriving DecidableEq, Repr

/-- Whitespace recognised by Python str.strip for the characters that occur
in this development. -/
def isSpaceChar (c : Char) : Bool :=
  c = ' ' || c = '\t' || c = '\n' || c = '\r'

/-- Models Python str.strip: drop leading and trailing whitespace. -/
def pyStrip (s : String) : String :=
  ⟨((s.data.dropWhile isSpaceChar).reverse.dropWhile isSpaceChar).reverse⟩

/-- Digit list to number, for modelling the Python int constructor. -/
def digitsToNat (l : List Char) : Nat :=
  l.foldl (fun acc c => acc * 10 + (c.toNat - 48)) 0

/-- Models Python int(s) on the tokens this program can see: optional
surrounding whitespace, an optional single sign, then one or more decimal
digits.  Returns none exactly when int would raise ValueError on such
tokens. -/
def pyInt (s : String) : Option Int :=
  let t := (pyStrip s).data
  let signed : Int × List Char :=
    match t with
    | '-' :: rest => (-1, rest)
    | '+' :: rest => (1, rest)
    | _ => (1, t)
  if signed.2 ≠ [] ∧ signed.2.all Char.isDigit then
    some (signed.1 * (digitsToNat signed.2 : Int))
  else none

/-- Python truthiness test (not x) for the optional new-template argument:
argparse leaves it None when absent, and the empty string is also falsy. -/
def pyNot : Option String → Bool
  | none => true
  | some s => s = ""

/-- Python f-string interpolation of the optional new-template argument:
str(None) is the string None. -/
def pyStr : Option String → String
  | none => "None"
  | some s => s

/-- run_command, lines 41 to 45: run the command, raise RuntimeError carrying
the stripped stderr on a non-zero exit status, else return the stripped
stdout. -/
def run_command (exec : Executor) (command : Cmd) : Except String String :=
  let result := exec command
  if result.returncode ≠ 0 then Except.error (pyStrip result.stderr)
  else Except.ok (pyStrip result.stdout)

/-- One issued command: the command is appended to the log whether it
succeeds or fails, and a failure becomes a RuntimeError as in run_command. -/
def stepCmd (exec : Executor) (log : List Cmd) (c : Cmd) :
    Except (Err × List Cmd) (String × List Cmd) :=
  match run_command exec c with
  | Except.ok out => Except.ok (out, log ++ [c])
  | Except.error msg => Except.error (Err.runtimeError msg, log ++ [c])

/-- The try block of get_template_type, lines 48 to 53: probe the
os-distribution feature, fall back to the ID field of /etc/os-release if it
is empty; any RuntimeError yields the string unknown.  Returns the detected
string and the updated log. -/
def get_template_type_probe (exec : Executor) (template : String)
    (log : List Cmd) : String × List Cmd :=
  match run_command exec (Cmd.featuresOsDistribution template) with
  | Except.error _ => ("unknown", log ++ [Cmd.featuresOsDistribution template])
  | Except.ok ty =>
    if ty = "" then
      match run_command exec (Cmd.grepOsReleaseID template) with
      | Except.error _ =>
          ("unknown",
           log ++ [Cmd.featuresOsDistribution template, Cmd.grepOsReleaseID template])
      | Except.ok ty2 =>
          (ty2,
           log ++ [Cmd.featuresOsDistribution template, Cmd.grepOsReleaseID template])
    else (ty, log ++ [Cmd.featuresOsDistribution template])

/-- get_template_type, lines 47 to 56: probe, then raise ValueError when the
result is empty or the string unknown. -/
def get_template_type (exec : Executor) (template : String) (log : List Cmd) :
    Except (Err × List Cmd) (String × List Cmd) :=
  let r := get_template_type_probe exec template log
  if r.1 = "" ∨ r.1 = "unknown" then
    Except.error
      (Err.valueError
        ("Could not determine template type for " ++ template ++ ". It might be EOL."),
       r.2)
  else Except.ok (r.1, r.2)

/-- The try block of get_template_version, lines 59 to 68: four probes in
order (os-version feature, numeric token of /etc/fedora-release,
VERSION_CODENAME of /etc/os-release, raw /etc/debian_version), each tried
only while the previous returned empty; any RuntimeError yields the string
unknown. -/
def get_template_version_probe (exec : Executor) (template : String)
    (log : List Cmd) : String × List Cmd :=
  match run_command exec (Cmd.featuresOsVersion template) with
  | Except.error _ => ("unknown", log ++ [Cmd.featuresOsVersion template])
  | Except.ok v1 =>
    let log1 := log ++ [Cmd.featuresOsVersion template]
    if v1 = "" then
      match run_command exec (Cmd.grepFedoraRelease template) with
      | Except.error _ => ("unknown", log1 ++ [Cmd.grepFedoraRelease template])
      | Except.ok v2 =>
        let log2 := log1 ++ [Cmd.grepFedoraRelease template]
        if v2 = "" then
          match run_command exec (Cmd.grepVersionCodename template) with
          | Except.error _ => ("unknown", log2 ++ [Cmd.grepVersionCodename template])
          | Except.ok v3 =>
            let log3 := log2 ++ [Cmd.grepVersionCodename template]
            if v3 = "" then
              match run_command exec (Cmd.catDebianVersion template) with
              | Except.error _ => ("unknown", log3 ++ [Cmd.catDebianVersion template])
              | Except.ok v4 => (v4, log3 ++ [Cmd.catDebianVersion template])
            else (v3, log3)
        else (v2, log2)
    else (v1, log1)

/-- get_template_version, lines 58 to 71: probe, then raise ValueError when
the result is empty or the string unknown. -/
def get_template_version (exec : Executor) (template : String) (log : List Cmd) :
    Except (Err × List Cmd) (String × List Cmd) :=
  let r := get_template_version_probe exec template log
  if r.1 = "" ∨ r.1 = "unknown" then
    Except.error
      (Err.valueError
        ("Could not determine template version for " ++ template ++ ". It might be EOL."),
       r.2)
  else Except.ok (r.1, r.2)

/-- The Debian succession dictionary of next_debian_version, lines 74 to 79. -/
def debian_versions : List (String × String) :=
  [("buster", "bullseye"), ("bullseye", "bookworm"),
   ("bookworm", "trixie"), ("trixie", "fornextversion")]

/-- next_debian_version, lines 73 to 80: dictionary get with default the
string unknown. -/
def next_debian_version (current_version : String) : String :=
  (debian_versions.lookup current_version).getD "unknown"

/-- upgrade_debian_template, lines 82 to 105: validate the clone request,
optionally clone and retarget, then start, rewrite apt sources, run the
compound apt upgrade, trim, and shut down.  Returns the final log. -/
def upgrade_debian_template (exec : Executor) (template : String) (clone : Bool)
    (new_template_name : Option String) (old_name new_name : String)
    (log : List Cmd) : Except (Err × List Cmd) (List Cmd) :=
  if clone && pyNot new_template_name then
    Except.error (Err.valueError "New template name required when cloning.", log)
  else
    let cloneStep : Except (Err × List Cmd) (String × List Cmd) :=
      if clone then
        match stepCmd exec log (Cmd.qvmClone template (pyStr new_template_name)) with
        | Except.error e => Except.error e
        | Except.ok (_, log1) => Except.ok (pyStr new_template_name, log1)
      else Except.ok (template, log)
    match cloneStep with
    | Except.error e => Except.error e
    | Except.ok (template1, log1) =>
      match stepCmd exec log1 (Cmd.qvmStart template1) with
      | Except.error e => Except.error e
      | Except.ok (_, log2) =>
        match stepCmd exec log2 (Cmd.sedSourcesList template1 old_name new_name) with
        | Except.error e => Except.error e
        | Except.ok (_, log3) =>
          match stepCmd exec log3 (Cmd.aptFullUpgrade template1) with
          | Except.error e => Except.error e
          | Except.ok (_, log4) =>
            match stepCmd exec log4 (Cmd.fstrim template1) with
            | Except.error e => Except.error e
            | Except.ok (_, log5) =>
              match stepCmd exec log5 (Cmd.qvmShutdown template1) with
              | Except.error e => Except.error e
              | Except.ok (_, log6) => Except.ok log6

/-- upgrade_fedora_template, lines 107 to 121: compute the successor release
with int (which may raise ValueError) before anything else, optionally clone
and retarget with no validation of the new name, then start, run the
compound dnf distro-sync, and shut down. -/
def upgrade_fedora_template (exec : Executor) (template : String) (clone : Bool)
    (new_template_name : Option String) (current_num : String)
    (log : List Cmd) : Except (Err × List Cmd) (List Cmd) :=
  match pyInt current_num with
  | none =>
      Except.error
        (Err.valueError ("invalid literal for int() with base 10: " ++ current_num), log)
  | some n =>
    let new_num : Int := n + 1
    let cloneStep : Except (Err × List Cmd) (String × List Cmd) :=
      if clone then
        match stepCmd exec log (Cmd.qvmClone template (pyStr new_template_name)) with
        | Except.error e => Except.error e
        | Except.ok (_, log1) => Except.ok (pyStr new_template_name, log1)
      else Except.ok (template, log)
    match cloneStep with
    | Except.error e => Except.error e
    | Except.ok (template1, log1) =>
      match stepCmd exec log1 (Cmd.qvmStart template1) with
      | Except.error e => Except.error e
      | Except.ok (_, log2) =>
        match stepCmd exec log2 (Cmd.dnfDistroSync template1 new_num) with
        | Except.error e => Except.error e
        | Except.ok (_, log3) =>
          match stepCmd exec log3 (Cmd.qvmShutdown template1) with
          | Except.error e => Except.error e
          | Except.ok (_, log4) => Except.ok log4

/-- change_qvm_features, lines 123 to 124: run the qubes.PostInstall hook as
root in the given template; the second argument is accepted and unused, as
in the source. -/
def change_qvm_features (exec : Executor) (template : String)
    (new_template_name : Option String) (log : List Cmd) :
    Except (Err × List Cmd) (List Cmd) :=
  match stepCmd exec log (Cmd.qubesPostInstall template) with
  | Except.error e => Except.error e
  | Except.ok (_, log1) => Except.ok log1

/-- The parsed command line of main, lines 128 to 132: the positional
template name, the clone flag, and the optional new-template name. -/
structure Args where
  template : String
  clone : Bool
  new_template : Option String
deriving DecidableEq, Repr

/-- The family dispatch of main, lines 145 to 157, after type and version
detection: Debian plans via the succession table and aborts on the unknown
sentinel, Fedora goes straight to its upgrade, anything else prints usage
and exits 1. -/
def mainDispatch (exec : Executor) (args : Args)
    (template_type template_version : String) (log : List Cmd) :
    Except (Err × List Cmd) (Nat × List Cmd) :=
  if template_type = "debian" then
    let new_name := next_debian_version template_version
    if new_name = "unknown" then
      Except.error (Err.valueError "Unknown Debian version.", log)
    else
      match upgrade_debian_template exec args.template args.clone
          args.new_template template_version new_name log with
      | Except.error e => Except.error e
      | Except.ok log1 =>
        match change_qvm_features exec args.template args.new_template log1 with
        | Except.error e => Except.error e
        | Except.ok log2 => Except.ok (0, log2)
  else if template_type = "fedora" then
    match upgrade_fedora_template exec args.template args.clone
        args.new_template template_version log with
    | Except.error e => Except.error e
    | Except.ok log1 =>
      match change_qvm_features exec args.template args.new_template log1 with
      | Except.error e => Except.error e
      | Except.ok log2 => Except.ok (0, log2)
  else Except.ok (1, log)

/-- The try block of main, lines 127 to 157: check the environment with
type qvm-ls (empty output means exit 1), detect type and version, then
dispatch on the family.  An ok value carries the exit code; an error is an
uncaught exception. -/
def mainBody (exec : Executor) (args : Args) :
    Except (Err × List Cmd) (Nat × List Cmd) :=
  match stepCmd exec [] Cmd.typeQvmLs with
  | Except.error e => Except.error e
  | Except.ok (out, log) =>
    if out = "" then Except.ok (1, log)
    else
      match get_template_type exec args.template log with
      | Except.error e => Except.error e
      | Except.ok (template_type, log1) =>
        match get_template_version exec args.template log1 with
        | Except.error e => Except.error e
        | Except.ok (template_version, log2) =>
          mainDispatch exec args template_type template_version log2

/-- main, lines 126 to 160: the except branch (handle_error, lines 15 to 18)
turns any propagated exception into exit status 1; a normal return of the
try block exits with its code (0 on the success path).  The whole run is
summarised as the exit status and the list of issued commands. -/
def mainRun (exec : Executor) (args : Args) : Nat × List Cmd :=
  match mainBody exec args with
  | Except.ok r => r
  | Except.error (_, log) => (1, log)

/-- A command mutates state in the template or in dom0; the probes of the
detection functions and the type qvm-ls check are read-only. -/
def Cmd.mutating : Cmd → Bool
  | Cmd.typeQvmLs => false
  | Cmd.featuresOsDistribution _ => false
  | Cmd.grepOsReleaseID _ => false
  | Cmd.featuresOsVersion _ => false
  | Cmd.grepFedoraRelease _ => false
  | Cmd.grepVersionCodename _ => false
  | Cmd.catDebianVersion _ => false
  | Cmd.qvmClone _ _ => true
  | Cmd.qvmStart _ => true
  | Cmd.sedSourcesList _ _ _ => true
  | Cmd.aptFullUpgrade _ => true
  | Cmd.fstrim _ => true
  | Cmd.qvmShutdown _ => true
  | Cmd.dnfDistroSync _ _ => true
  | Cmd.qubesPostInstall _ => true

/-- The user a qvm-run command executes as inside the template: some root
when the source passes -u root, none for the default unprivileged user (and
for commands that do not run inside the template). -/
def Cmd.runUser : Cmd → Option String
  | Cmd.sedSourcesList _ _ _ => some "root"
  | Cmd.aptFullUpgrade _ => some "root"
  | Cmd.fstrim _ => some "root"
  | Cmd.dnfDistroSync _ _ => some "root"
  | Cmd.qubesPostInstall _ => some "root"
  | _ => none

/-- The named environment a command targets: the template name interpolated
into the command string (for qvm-clone, the source template being copied). -/
def Cmd.env : Cmd → Option String
  | Cmd.typeQvmLs => none
  | Cmd.featuresOsDistribution t => some t
  | Cmd.grepOsReleaseID t => some t
  | Cmd.featuresOsVersion t => some t
  | Cmd.grepFedoraRelease t => some t
  | Cmd.grepVersionCodename t => some t
  | Cmd.catDebianVersion t => some t
  | Cmd.qvmClone t _ => some t
  | Cmd.qvmStart t => some t
  | Cmd.sedSourcesList t _ _ => some t
  | Cmd.aptFullUpgrade t => some t
  | Cmd.fstrim t => some t
  | Cmd.qvmShutdown t => some t
  | Cmd.dnfDistroSync t _ => some t
  | Cmd.qubesPostInstall t => some t

/-- The ordered phase commands of a Debian upgrade for a given
configuration, as issued by upgrade_debian_template on its non-raising
paths. -/
def debianPlan (template : String) (clone : Bool) (ntn : Option String)
    (old_name new_name : String) : List Cmd :=
  let t := if clone then pyStr ntn else template
  (if clone then [Cmd.qvmClone template (pyStr ntn)] else []) ++
    [Cmd.qvmStart t, Cmd.sedSourcesList t old_name new_name,
     Cmd.aptFullUpgrade t, Cmd.fstrim t, Cmd.qvmShutdown t]

/-- The ordered phase commands of a Fedora upgrade for a given configuration
and parsed current release n, as issued by upgrade_fedora_template. -/
def fedoraPlan (template : String) (clone : Bool) (ntn : Option String)
    (n : Int) : List Cmd :=
  let t := if clone then pyStr ntn else template
  (if clone then [Cmd.qvmClone template (pyStr ntn)] else []) ++
    [Cmd.qvmStart t, Cmd.dnfDistroSync t (n + 1), Cmd.qvmShutdown t]

/-- Issue a list of commands in order, stopping at the first failure. -/
def runSeq (exec : Executor) : List Cmd → List Cmd →
    Except (Err × List Cmd) (List Cmd)
  | [], log => Except.ok log
  | c :: cs, log =>
    match stepCmd exec log c with
    | Except.error e => Except.error e
    | Except.ok (_, log1) => runSeq exec cs log1

/-- The commands issued by an orchestration result, whether it succeeded or
raised. -/
def logOfRun : Except (Err × List Cmd) (List Cmd) → List Cmd
  | Except.ok log => log
  | Except.error (_, log) => log

/-- The commands issued by a detection result, whether it succeeded or
raised. -/
def logOfProbe : Except (Err × List Cmd) (String × List Cmd) → List Cmd
  | Except.ok (_, log) => log
  | Except.error (_, log) => log


/-- An executor for a Fedora template on release 38 on which every command
succeeds; the type qvm-ls check prints a location. -/
def execFedora38 : Executor := fun c =>
  match c with
  | Cmd.featuresOsDistribution _ => ⟨0, "fedora", ""⟩
  | Cmd.featuresOsVersion _ => ⟨0, "38", ""⟩
  | _ => ⟨0, "ok", ""⟩

/-- An executor for a Debian template on trixie on which every command
succeeds. -/
def execDebTrixie : Executor := fun c =>
  match c with
  | Cmd.featuresOsDistribution _ => ⟨0, "debian", ""⟩
  | Cmd.featuresOsVersion _ => ⟨0, "trixie", ""⟩
  | _ => ⟨0, "ok", ""⟩

/-- An executor for a Debian template on bullseye on which every command
succeeds. -/
def execDebBullseye : Executor := fun c =>
  match c with
  | Cmd.featuresOsDistribution _ => ⟨0, "debian", ""⟩
  | Cmd.featuresOsVersion _ => ⟨0, "bullseye", ""⟩
  | _ => ⟨0, "ok", ""⟩

/-- An executor for a Debian template on bullseye on which the compound apt
upgrade command fails and every other command succeeds. -/
def execDebFailApt : Executor := fun c =>
  match c with
  | Cmd.featuresOsDistribution _ => ⟨0, "debian", ""⟩
  | Cmd.featuresOsVersion _ => ⟨0, "bullseye", ""⟩
  | Cmd.aptFullUpgrade _ => ⟨1, "", "apt failed"⟩
  | _ => ⟨0, "ok", ""⟩

/-- An executor for a Debian template whose detected version sid is not in
the succession table; every command succeeds. -/
def execDebSid : Executor := fun c =>
  match c with
  | Cmd.featuresOsDistribution _ => ⟨0, "debian", ""⟩
  | Cmd.featuresOsVersion _ => ⟨0, "sid", ""⟩
  | _ => ⟨0, "ok", ""⟩

/-- An executor for a Fedora template whose detected version token is a
codename rather than a number; every command succeeds. -/
def execFedoraCodename : Executor := fun c =>
  match c with
  | Cmd.featuresOsDistribution _ => ⟨0, "fedora", ""⟩
  | Cmd.featuresOsVersion _ => ⟨0, "bullseye", ""⟩
  | _ => ⟨0, "ok", ""⟩

/-- An executor for a template of the unsupported arch family; every command
succeeds. -/
def execArch : Executor := fun c =>
  match c with
  | Cmd.featuresOsDistribution _ => ⟨0, "arch", ""⟩
  | Cmd.featuresOsVersion _ => ⟨0, "1", ""⟩
  | _ => ⟨0, "ok", ""⟩

/-- An executor whose os-version feature probe answers the string unknown
while the fedora-release probe would answer 39; every command succeeds. -/
def execVerUnknown : Executor := fun c =>
  match c with
  | Cmd.featuresOsVersion _ => ⟨0, "unknown", ""⟩
  | Cmd.grepFedoraRelease _ => ⟨0, "39", ""⟩
  | _ => ⟨0, "", ""⟩

/-- A successful command: stepCmd returns the stripped stdout and appends
the command to the log. -/
theorem step_ok (exec : Executor) (log : List Cmd) (c : Cmd)
    (h : (exec c).returncode = 0) :
    stepCmd exec log c = Except.ok (pyStrip (exec c).stdout, log ++ [c]) := by
  simp [stepCmd, run_command, h]

/-- A failing command: stepCmd raises a RuntimeError carrying the stripped
stderr, the command still appended to the log. -/
theorem step_err (exec : Executor) (log : List Cmd) (c : Cmd)
    (h : (exec c).returncode ≠ 0) :
    stepCmd exec log c =
      Except.error (Err.runtimeError (pyStrip (exec c).stderr), log ++ [c]) := by
  simp [stepCmd, run_command, h]

/-- Whatever stepCmd returns, the log component is the input log with the
command appended. -/
theorem stepCmd_log (exec : Executor) (log : List Cmd) (c : Cmd) :
    (match stepCmd exec log c with
     | Except.ok (_, l) => l
     | Except.error (_, l) => l) = log ++ [c] := by
  by_cases h : (exec c).returncode = 0
  · rw [step_ok exec log c h]
  · rw [step_err exec log c h]

/-- If every command succeeds, runSeq issues the whole plan in order. -/
theorem runSeq_ok (exec : Executor) (hall : ∀ c, (exec c).returncode = 0) :
    ∀ (plan log : List Cmd), runSeq exec plan log = Except.ok (log ++ plan) := by
  intro plan
  induction plan with
  | nil => intro log; simp [runSeq]
  | cons c cs ih =>
    intro log
    rw [runSeq, step_ok exec log c (hall c)]
    simp [ih (log ++ [c])]

/-- If the executor succeeds on every plan command except the one at index k
and fails at index k, runSeq raises a RuntimeError having issued exactly the
plan commands up to and including index k. -/
theorem runSeq_fail (exec : Executor) :
    ∀ (plan : List Cmd) (log : List Cmd) (k : Nat) (hk : k < plan.length),
      (∀ i (hi : i < plan.length), i ≠ k → (exec (plan.get ⟨i, hi⟩)).returncode = 0) →
      (exec (plan.get ⟨k, hk⟩)).returncode ≠ 0 →
      ∃ e, runSeq exec plan log =
        Except.error (Err.runtimeError e, log ++ plan.take (k + 1)) := by
  intro plan
  induction plan with
  | nil => intro log k hk; exact absurd hk (by simp)
  | cons c cs ih =>
    intro log k hk hsucc hfail
    cases k with
    | zero =>
      refine ⟨pyStrip (exec c).stderr, ?_⟩
      have h : (exec c).returncode ≠ 0 := by simpa using hfail
      rw [runSeq, step_err exec log c h]
      simp
    | succ k =>
      have h0 : (exec c).returncode = 0 := by
        have := hsucc 0 (by simp) (by simp)
        simpa using this
      have hk2 : k < cs.length := by simpa using hk
      obtain ⟨e, he⟩ := ih (log ++ [c]) k hk2
        (fun i hi hne => by
          have := hsucc (i + 1) (by simpa using hi) (by simpa using hne)
          simpa using this)
        (by simpa using hfail)
      refine ⟨e, ?_⟩
      rw [runSeq, step_ok exec log c h0]
      simp only [he, List.take_succ_cons, List.append_assoc, List.singleton_append]

/-- Every command in the log produced by runSeq was already in the incoming
log or belongs to the plan. -/
theorem runSeq_mem (exec : Executor) :
    ∀ (plan log : List Cmd) (c : Cmd),
      c ∈ logOfRun (runSeq exec plan log) → c ∈ log ∨ c ∈ plan := by
  intro plan
  induction plan with
  | nil => intro log c h; simp [runSeq, logOfRun] at h; exact Or.inl h
  | cons d cs ih =>
    intro log c h
    by_cases h0 : (exec d).returncode = 0
    · rw [runSeq, step_ok exec log d h0] at h
      rcases ih (log ++ [d]) c h with hm | hm
      · rcases List.mem_append.mp hm with hl | hl
        · exact Or.inl hl
        · exact Or.inr (by simp at hl; simp [hl])
      · exact Or.inr (List.mem_cons_of_mem _ hm)
    · rw [runSeq, step_err exec log d h0] at h
      simp only [logOfRun] at h
      rcases List.mem_append.mp h with hl | hl
      · exact Or.inl hl
      · exact Or.inr (by simp at hl; simp [hl])

/-- On a valid clone configuration, upgrade_debian_template issues exactly
the Debian plan in order, stopping at the first failure. -/
theorem upgrade_debian_runSeq (exec : Executor) (t : String) (clone : Bool)
    (ntn : Option String) (old_name new_name : String) (log : List Cmd)
    (hclone : (clone && pyNot ntn) = false) :
    upgrade_debian_template exec t clone ntn old_name new_name log =
      runSeq exec (debianPlan t clone ntn old_name new_name) log := by
  cases clone with
  | false =>
    simp only [upgrade_debian_template, debianPlan, Bool.false_and,
      Bool.false_eq_true, if_false, List.nil_append, runSeq]
  | true =>
    have hn : pyNot ntn = false := by simpa using hclone
    simp only [upgrade_debian_template, debianPlan, hn, Bool.and_false,
      Bool.false_eq_true, if_false, if_true, List.singleton_append, runSeq]
    rcases h0 : stepCmd exec log (Cmd.qvmClone t (pyStr ntn)) with e0 | ⟨o0, l0⟩ <;>
      simp only [runSeq]

/-- When the current version token parses as n, upgrade_fedora_template
issues exactly the Fedora plan for n in order, stopping at the first
failure. -/
theorem upgrade_fedora_runSeq (exec : Executor) (t : String) (clone : Bool)
    (ntn : Option String) (num : String) (n : Int) (log : List Cmd)
    (hn : pyInt num = some n) :
    upgrade_fedora_template exec t clone ntn num log =
      runSeq exec (fedoraPlan t clone ntn n) log := by
  cases clone with
  | false =>
    simp only [upgrade_fedora_template, fedoraPlan, hn, Bool.false_eq_true,
      if_false, List.nil_append, runSeq]
  | true =>
    simp only [upgrade_fedora_template, fedoraPlan, hn, if_true,
      List.singleton_append, runSeq]
    rcases h0 : stepCmd exec log (Cmd.qvmClone t (pyStr ntn)) with e0 | ⟨o0, l0⟩ <;>
      simp only [runSeq]

/-- change_qvm_features always appends exactly the post-install command for
the template name it was given, whether the command succeeds or fails. -/
theorem change_qvm_features_log (exec : Executor) (t : String)
    (ntn : Option String) (log : List Cmd) :
    logOfRun (change_qvm_features exec t ntn log) =
      log ++ [Cmd.qubesPostInstall t] := by
  by_cases h : (exec (Cmd.qubesPostInstall t)).returncode = 0
  · simp [change_qvm_features, step_ok exec log _ h, logOfRun]
  · simp [change_qvm_features, step_err exec log _ h, logOfRun]

/-- When change_qvm_features succeeds its log is the input log with the
post-install command for its template appended. -/
theorem change_qvm_features_ok (exec : Executor) (t : String)
    (ntn : Option String) (log log1 : List Cmd)
    (h : change_qvm_features exec t ntn log = Except.ok log1) :
    log1 = log ++ [Cmd.qubesPostInstall t] := by
  by_cases h0 : (exec (Cmd.qubesPostInstall t)).returncode = 0
  · simp [change_qvm_features, step_ok exec log _ h0] at h
    exact h.symm
  · simp [change_qvm_features, step_err exec log _ h0] at h

/-- When the os-distribution feature probe succeeds with a non-empty value
other than the string unknown, get_template_type returns it having issued
only that probe. -/
theorem gtt_first_ok (exec : Executor) (t ty : String) (log : List Cmd)
    (h0 : (exec (Cmd.featuresOsDistribution t)).returncode = 0)
    (h1 : pyStrip (exec (Cmd.featuresOsDistribution t)).stdout = ty)
    (hne : ty ≠ "") (hnu : ty ≠ "unknown") :
    get_template_type exec t log =
      Except.ok (ty, log ++ [Cmd.featuresOsDistribution t]) := by
  simp [get_template_type, get_template_type_probe, run_command, h0, h1, hne, hnu]

/-- When the os-version feature probe succeeds with a non-empty value other
than the string unknown, get_template_version returns it having issued only
that probe. -/
theorem gtv_first_ok (exec : Executor) (t v : String) (log : List Cmd)
    (h0 : (exec (Cmd.featuresOsVersion t)).returncode = 0)
    (h1 : pyStrip (exec (Cmd.featuresOsVersion t)).stdout = v)
    (hne : v ≠ "") (hnu : v ≠ "unknown") :
    get_template_version exec t log =
      Except.ok (v, log ++ [Cmd.featuresOsVersion t]) := by
  simp [get_template_version, get_template_version_probe, run_command, h0, h1, hne, hnu]

/-- The log of get_template_type is the log of its probe part, whether it
raises or not. -/
theorem gtt_log (exec : Executor) (t : String) (log : List Cmd) :
    logOfProbe (get_template_type exec t log) =
      (get_template_type_probe exec t log).2 := by
  simp only [get_template_type]
  split <;> rfl

/-- The log of get_template_version is the log of its probe part, whether it
raises or not. -/
theorem gtv_log (exec : Executor) (t : String) (log : List Cmd) :
    logOfProbe (get_template_version exec t log) =
      (get_template_version_probe exec t log).2 := by
  simp only [get_template_version]
  split <;> rfl

/-- Splitting a membership in a log extended by read-only probes. -/
theorem mem_append_probe (log L : List Cmd) (c : Cmd)
    (hL : ∀ d ∈ L, Cmd.mutating d = false) (hmem : c ∈ log ++ L) :
    c ∈ log ∨ c.mutating = false := by
  rcases List.mem_append.mp hmem with h | h
  · exact Or.inl h
  · exact Or.inr (hL c h)

/-- Every command the type probe adds to the log is a read-only probe. -/
theorem gtt_probe_mem (exec : Executor) (t : String) (log : List Cmd) (c : Cmd)
    (hc : c ∈ (get_template_type_probe exec t log).2) :
    c ∈ log ∨ c.mutating = false := by
  unfold get_template_type_probe at hc
  split at hc
  · exact mem_append_probe log _ c
      (by intro d hd; simp only [List.mem_singleton] at hd; subst hd; rfl) hc
  · split at hc
    · split at hc
      · exact mem_append_probe log _ c
          (by intro d hd
              simp only [List.mem_cons, List.mem_singleton, List.not_mem_nil,
                or_false] at hd
              rcases hd with rfl | rfl <;> rfl) hc
      · exact mem_append_probe log _ c
          (by intro d hd
              simp only [List.mem_cons, List.mem_singleton, List.not_mem_nil,
                or_false] at hd
              rcases hd with rfl | rfl <;> rfl) hc
    · exact mem_append_probe log _ c
        (by intro d hd; simp only [List.mem_singleton] at hd; subst hd; rfl) hc

/-- Every command the version probe adds to the log is a read-only probe. -/
theorem gtv_probe_mem (exec : Executor) (t : String) (log : List Cmd) (c : Cmd)
    (hc : c ∈ (get_template_version_probe exec t log).2) :
    c ∈ log ∨ c.mutating = false := by
  unfold get_template_version_probe at hc
  have hclose : ∀ L : List Cmd, (∀ d ∈ L, Cmd.mutating d = false) →
      c ∈ log ++ L → c ∈ log ∨ c.mutating = false :=
    fun L hL hmem => mem_append_probe log L c hL hmem
  have p1 : ∀ d ∈ [Cmd.featuresOsVersion t], Cmd.mutating d = false := by
    intro d hd; simp only [List.mem_singleton] at hd; subst hd; rfl
  have p2 : ∀ d ∈ [Cmd.featuresOsVersion t, Cmd.grepFedoraRelease t],
      Cmd.mutating d = false := by
    intro d hd
    simp only [List.mem_cons, List.mem_singleton, List.not_mem_nil, or_false] at hd
    rcases hd with rfl | rfl <;> rfl
  have p3 : ∀ d ∈ [Cmd.featuresOsVersion t, Cmd.grepFedoraRelease t,
      Cmd.grepVersionCodename t], Cmd.mutating d = false := by
    intro d hd
    simp only [List.mem_cons, List.mem_singleton, List.not_mem_nil, or_false] at hd
    rcases hd with rfl | rfl | rfl <;> rfl
  have p4 : ∀ d ∈ [Cmd.featuresOsVersion t, Cmd.grepFedoraRelease t,
      Cmd.grepVersionCodename t, Cmd.catDebianVersion t], Cmd.mutating d = false := by
    intro d hd
    simp only [List.mem_cons, List.mem_singleton, List.not_mem_nil, or_false] at hd
    rcases hd with rfl | rfl | rfl | rfl <;> rfl
  split at hc
  · exact hclose _ p1 hc
  · split at hc
    · split at hc
      · exact hclose _ p2 (by simpa [List.append_assoc] using hc)
      · split at hc
        · split at hc
          · exact hclose _ p3 (by simpa [List.append_assoc] using hc)
          · split at hc
            · split at hc
              · exact hclose _ p4 (by simpa [List.append_assoc] using hc)
              · exact hclose _ p4 (by simpa [List.append_assoc] using hc)
            · exact hclose _ p3 (by simpa [List.append_assoc] using hc)
        · exact hclose _ p2 (by simpa [List.append_assoc] using hc)
    · exact hclose _ p1 hc

/-- When the environment check and the two feature probes succeed with
usable values, mainBody reduces to the family dispatch on the detected type
and version, with exactly the three read-only probes issued. -/
theorem mainBody_detect (exec : Executor) (args : Args) (ty v : String)
    (hq0 : (exec Cmd.typeQvmLs).returncode = 0)
    (hq1 : ¬pyStrip (exec Cmd.typeQvmLs).stdout = "")
    (hd0 : (exec (Cmd.featuresOsDistribution args.template)).returncode = 0)
    (hd1 : pyStrip (exec (Cmd.featuresOsDistribution args.template)).stdout = ty)
    (hty1 : ty ≠ "") (hty2 : ty ≠ "unknown")
    (hv0 : (exec (Cmd.featuresOsVersion args.template)).returncode = 0)
    (hv1 : pyStrip (exec (Cmd.featuresOsVersion args.template)).stdout = v)
    (hve : v ≠ "") (hvu : v ≠ "unknown") :
    mainBody exec args =
      mainDispatch exec args ty v
        [Cmd.typeQvmLs, Cmd.featuresOsDistribution args.template,
         Cmd.featuresOsVersion args.template] := by
  simp only [mainBody, step_ok exec [] Cmd.typeQvmLs hq0, List.nil_append,
    hq1, if_false]
  simp only [gtt_first_ok exec args.template ty [Cmd.typeQvmLs] hd0 hd1 hty1 hty2,
    List.singleton_append, List.cons_append, List.nil_append]
  simp only [gtv_first_ok exec args.template v
      [Cmd.typeQvmLs, Cmd.featuresOsDistribution args.template] hv0 hv1 hve hvu,
    List.singleton_append, List.cons_append, List.nil_append]

/-- A run that exits 0 went through the full success path, so its last
issued command is the post-install hook on the original template name. -/
theorem mainBody_zero_log (exec : Executor) (args : Args) (log : List Cmd)
    (h : mainBody exec args = Except.ok (0, log)) :
    ∃ log0, log = log0 ++ [Cmd.qubesPostInstall args.template] := by
  rw [mainBody] at h
  rcases hs : stepCmd exec [] Cmd.typeQvmLs with e | ⟨out, log1⟩ <;>
    simp only [hs] at h
  · exact absurd h (by simp)
  · by_cases hout : out = ""
    · simp only [hout, if_true] at h
      exact absurd h (by simp)
    · simp only [hout, if_false] at h
      rcases hgtt : get_template_type exec args.template log1 with e | ⟨ty, log2⟩ <;>
        simp only [hgtt] at h
      · exact absurd h (by simp)
      · rcases hgtv : get_template_version exec args.template log2 with e | ⟨v, log3⟩ <;>
          simp only [hgtv] at h
        · exact absurd h (by simp)
        · simp only [mainDispatch] at h
          by_cases hdeb : ty = "debian"
          · simp only [hdeb, if_true] at h
            by_cases hun : next_debian_version v = "unknown"
            · simp only [hun, if_true] at h
              exact absurd h (by simp)
            · simp only [hun, if_false] at h
              rcases hup : upgrade_debian_template exec args.template args.clone
                  args.new_template v (next_debian_version v) log3 with e | log4 <;>
                simp only [hup] at h
              · exact absurd h (by simp)
              · rcases hch : change_qvm_features exec args.template args.new_template
                    log4 with e | log5 <;> simp only [hch] at h
                · exact absurd h (by simp)
                · have hlog : log5 = log := congrArg Prod.snd (Except.ok.inj h)
                  exact ⟨log4, hlog ▸ change_qvm_features_ok exec args.template
                    args.new_template log4 log5 hch⟩
          · simp only [hdeb, if_false] at h
            by_cases hfed : ty = "fedora"
            · simp only [hfed, if_true] at h
              rcases hup : upgrade_fedora_template exec args.template args.clone
                  args.new_template v log3 with e | log4 <;> simp only [hup] at h
              · exact absurd h (by simp)
              · rcases hch : change_qvm_features exec args.template args.new_template
                    log4 with e | log5 <;> simp only [hch] at h
                · exact absurd h (by simp)
                · have hlog : log5 = log := congrArg Prod.snd (Except.ok.inj h)
                  exact ⟨log4, hlog ▸ change_qvm_features_ok exec args.template
                    args.new_template log4 log5 hch⟩
            · simp only [hfed, if_false] at h
              exact absurd h (by simp)

/-- C1: for every run of either family, if the command of some phase fails
(non-zero exit status at plan index k), no command of any later phase is
issued: the run terminates with exit status 1 and the issued commands are
exactly the three detection probes followed by the phase commands up to and
including the failing one. -/
theorem phase_failure_aborts_run :
    (∀ (exec : Executor) (t v : String) (clone : Bool) (ntn : Option String) (k : Nat)
       (hq0 : (exec Cmd.typeQvmLs).returncode = 0)
       (hq1 : ¬pyStrip (exec Cmd.typeQvmLs).stdout = "")
       (hd0 : (exec (Cmd.featuresOsDistribution t)).returncode = 0)
       (hd1 : pyStrip (exec (Cmd.featuresOsDistribution t)).stdout = "debian")
       (hv0 : (exec (Cmd.featuresOsVersion t)).returncode = 0)
       (hv1 : pyStrip (exec (Cmd.featuresOsVersion t)).stdout = v)
       (hve : v ≠ "") (hvu : v ≠ "unknown")
       (hnext : next_debian_version v ≠ "unknown")
       (hclone : (clone && pyNot ntn) = false)
       (hk : k < (debianPlan t clone ntn v (next_debian_version v)).length)
       (hsucc : ∀ i (hi : i < (debianPlan t clone ntn v (next_debian_version v)).length),
          i ≠ k →
          (exec ((debianPlan t clone ntn v (next_debian_version v)).get ⟨i, hi⟩)).returncode = 0)
       (hfail :
          (exec ((debianPlan t clone ntn v (next_debian_version v)).get ⟨k, hk⟩)).returncode ≠ 0),
       mainRun exec ⟨t, clone, ntn⟩ =
         (1, [Cmd.typeQvmLs, Cmd.featuresOsDistribution t, Cmd.featuresOsVersion t] ++
             (debianPlan t clone ntn v (next_debian_version v)).take (k + 1))) ∧
    (∀ (exec : Executor) (t v : String) (n : Int) (clone : Bool) (ntn : Option String) (k : Nat)
       (hq0 : (exec Cmd.typeQvmLs).returncode = 0)
       (hq1 : ¬pyStrip (exec Cmd.typeQvmLs).stdout = "")
       (hd0 : (exec (Cmd.featuresOsDistribution t)).returncode = 0)
       (hd1 : pyStrip (exec (Cmd.featuresOsDistribution t)).stdout = "fedora")
       (hv0 : (exec (Cmd.featuresOsVersion t)).returncode = 0)
       (hv1 : pyStrip (exec (Cmd.featuresOsVersion t)).stdout = v)
       (hve : v ≠ "") (hvu : v ≠ "unknown")
       (hn : pyInt v = some n)
       (hk : k < (fedoraPlan t clone ntn n).length)
       (hsucc : ∀ i (hi : i < (fedoraPlan t clone ntn n).length),
          i ≠ k → (exec ((fedoraPlan t clone ntn n).get ⟨i, hi⟩)).returncode = 0)
       (hfail : (exec ((fedoraPlan t clone ntn n).get ⟨k, hk⟩)).returncode ≠ 0),
       mainRun exec ⟨t, clone, ntn⟩ =
         (1, [Cmd.typeQvmLs, Cmd.featuresOsDistribution t, Cmd.featuresOsVersion t] ++
             (fedoraPlan t clone ntn n).take (k + 1))) := by
  constructor
  · intro exec t v clone ntn k hq0 hq1 hd0 hd1 hv0 hv1 hve hvu hnext hclone hk hsucc hfail
    have hmb := mainBody_detect exec ⟨t, clone, ntn⟩ "debian" v hq0 hq1 hd0 hd1
      (by decide) (by decide) hv0 hv1 hve hvu
    obtain ⟨e, he⟩ := runSeq_fail exec (debianPlan t clone ntn v (next_debian_version v))
      [Cmd.typeQvmLs, Cmd.featuresOsDistribution t, Cmd.featuresOsVersion t] k hk hsucc hfail
    have htrue : (("debian" : String) = "debian") = True := by simp
    have hun : (next_debian_version v = "unknown") = False := by simp [hnext]
    rw [mainRun]
    simp only [hmb, mainDispatch, htrue, if_true, hun, if_false,
      upgrade_debian_runSeq exec t clone ntn v (next_debian_version v)
        [Cmd.typeQvmLs, Cmd.featuresOsDistribution t, Cmd.featuresOsVersion t] hclone,
      he]
  · intro exec t v n clone ntn k hq0 hq1 hd0 hd1 hv0 hv1 hve hvu hn hk hsucc hfail
    have hmb := mainBody_detect exec ⟨t, clone, ntn⟩ "fedora" v hq0 hq1 hd0 hd1
      (by decide) (by decide) hv0 hv1 hve hvu
    obtain ⟨e, he⟩ := runSeq_fail exec (fedoraPlan t clone ntn n)
      [Cmd.typeQvmLs, Cmd.featuresOsDistribution t, Cmd.featuresOsVersion t] k hk hsucc hfail
    have hfd : (("fedora" : String) = "debian") = False := by simp
    have htrue : (("fedora" : String) = "fedora") = True := by simp
    rw [mainRun]
    simp only [hmb, mainDispatch, hfd, if_false, htrue, if_true,
      upgrade_fedora_runSeq exec t clone ntn v n
        [Cmd.typeQvmLs, Cmd.featuresOsDistribution t, Cmd.featuresOsVersion t] hn,
      he]

/-- Witness for C1: failing the third Debian phase command (the compound apt
upgrade) on a bullseye run aborts the run with exit status 1 after exactly
the probes and the first three phase commands. -/
theorem phase_failure_aborts_run_witness :
    mainRun execDebFailApt ⟨"deb", false, none⟩ =
      (1, [Cmd.typeQvmLs, Cmd.featuresOsDistribution "deb", Cmd.featuresOsVersion "deb",
           Cmd.qvmStart "deb", Cmd.sedSourcesList "deb" "bullseye" "bookworm",
           Cmd.aptFullUpgrade "deb"]) := by
  have h := phase_failure_aborts_run.1 execDebFailApt "deb" "bullseye" false none 2
    (by decide) (by decide) (by decide) (by decide) (by decide) (by decide)
    (by decide) (by decide) (by decide) (by decide) (by decide) (by decide) (by decide)
  exact h.trans (by decide)

/-- C2 (failing input): on a Fedora template, requesting a clone without a
new template name does not raise any ValueError: the run issues a mutating
qvm-clone command whose destination is the interpolated string None,
completes every phase, and exits 0.  Only the Debian path validates the
clone request. -/
theorem fedora_clone_without_name_issues_clone :
    mainRun execFedora38 ⟨"tmpl", true, none⟩ =
      (0, [Cmd.typeQvmLs, Cmd.featuresOsDistribution "tmpl", Cmd.featuresOsVersion "tmpl",
           Cmd.qvmClone "tmpl" "None", Cmd.qvmStart "None",
           Cmd.dnfDistroSync "None" 39, Cmd.qvmShutdown "None",
           Cmd.qubesPostInstall "tmpl"]) ∧
    (Cmd.qvmClone "tmpl" "None").mutating = true ∧
    (∀ (t : String) (ntn : Option String) (old new : String) (log : List Cmd)
       (exec : Executor), pyNot ntn = true →
       upgrade_debian_template exec t true ntn old new log =
         Except.error (Err.valueError "New template name required when cloning.", log)) := by
  refine ⟨by decide, rfl, ?_⟩
  intro t ntn old new log exec hntn
  simp [upgrade_debian_template, hntn]

/-- C3 (failing input): on a successful Fedora clone run every phase command
after the clone targets the new name, but the post-install hook is invoked
by main with the original template name, so the original receives a further
command after being copied. -/
theorem post_install_targets_original_template :
    mainRun execFedora38 ⟨"tmpl", true, some "tmpl-new"⟩ =
      (0, [Cmd.typeQvmLs, Cmd.featuresOsDistribution "tmpl", Cmd.featuresOsVersion "tmpl",
           Cmd.qvmClone "tmpl" "tmpl-new", Cmd.qvmStart "tmpl-new",
           Cmd.dnfDistroSync "tmpl-new" 39, Cmd.qvmShutdown "tmpl-new",
           Cmd.qubesPostInstall "tmpl"]) ∧
    (mainRun execFedora38 ⟨"tmpl", true, some "tmpl-new"⟩).2.getLast? =
      some (Cmd.qubesPostInstall "tmpl") ∧
    Cmd.env (Cmd.qubesPostInstall "tmpl") = some "tmpl" ∧
    ("tmpl" : String) ≠ "tmpl-new" := by decide

/-- C4 (counterexample): a fully successful Debian run invokes the
post-install hook, and that command runs as root, not as the unprivileged
caller. -/
theorem post_install_privilege_cex :
    (mainRun execDebBullseye ⟨"deb", false, none⟩).1 = 0 ∧
    Cmd.qubesPostInstall "deb" ∈ (mainRun execDebBullseye ⟨"deb", false, none⟩).2 ∧
    Cmd.runUser (Cmd.qubesPostInstall "deb") = some "root" ∧
    Cmd.runUser (Cmd.qubesPostInstall "deb") ≠ none := by decide

/-- C4 (amended): every run that exits 0 ends by invoking the post-install
hook on the original template name, and that command executes as root
(privileged), not as the caller. -/
theorem post_install_runs_as_root (exec : Executor) (args : Args) (log : List Cmd)
    (h : mainRun exec args = (0, log)) :
    log.getLast? = some (Cmd.qubesPostInstall args.template) ∧
    Cmd.runUser (Cmd.qubesPostInstall args.template) = some "root" := by
  have hb : mainBody exec args = Except.ok (0, log) := by
    rw [mainRun] at h
    rcases hm : mainBody exec args with ⟨er, lg⟩ | r <;> simp only [hm] at h
    · exact absurd (congrArg Prod.fst h) (by simp)
    · exact congrArg Except.ok h
  obtain ⟨log0, hl⟩ := mainBody_zero_log exec args log hb
  refine ⟨?_, rfl⟩
  rw [hl, List.getLast?_concat]

/-- Witness for the amended C4 on a concrete successful Debian run. -/
theorem post_install_runs_as_root_witness :
    [Cmd.typeQvmLs, Cmd.featuresOsDistribution "deb", Cmd.featuresOsVersion "deb",
     Cmd.qvmStart "deb", Cmd.sedSourcesList "deb" "bullseye" "bookworm",
     Cmd.aptFullUpgrade "deb", Cmd.fstrim "deb", Cmd.qvmShutdown "deb",
     Cmd.qubesPostInstall "deb"].getLast? = some (Cmd.qubesPostInstall "deb") ∧
    Cmd.runUser (Cmd.qubesPostInstall "deb") = some "root" :=
  post_install_runs_as_root execDebBullseye ⟨"deb", false, none⟩ _ (by decide)

/-- C5: every key of the Debian succession table other than the last maps to
its documented successor; every token absent from the table maps to the
unknown sentinel; and a Debian run whose detected version maps to the
sentinel aborts with exit status 1 having issued only the three read-only
probes. -/
theorem debian_succession_and_unknown_abort :
    (next_debian_version "buster" = "bullseye" ∧
     next_debian_version "bullseye" = "bookworm" ∧
     next_debian_version "bookworm" = "trixie") ∧
    (∀ s, s ≠ "buster" → s ≠ "bullseye" → s ≠ "bookworm" → s ≠ "trixie" →
       next_debian_version s = "unknown") ∧
    (∀ (exec : Executor) (t v : String) (clone : Bool) (ntn : Option String),
       (exec Cmd.typeQvmLs).returncode = 0 →
       ¬pyStrip (exec Cmd.typeQvmLs).stdout = "" →
       (exec (Cmd.featuresOsDistribution t)).returncode = 0 →
       pyStrip (exec (Cmd.featuresOsDistribution t)).stdout = "debian" →
       (exec (Cmd.featuresOsVersion t)).returncode = 0 →
       pyStrip (exec (Cmd.featuresOsVersion t)).stdout = v →
       v ≠ "" → v ≠ "unknown" →
       next_debian_version v = "unknown" →
       mainRun exec ⟨t, clone, ntn⟩ =
         (1, [Cmd.typeQvmLs, Cmd.featuresOsDistribution t, Cmd.featuresOsVersion t]) ∧
       ∀ c ∈ (mainRun exec ⟨t, clone, ntn⟩).2, c.mutating = false) := by
  refine ⟨⟨rfl, rfl, rfl⟩, ?_, ?_⟩
  · intro s h1 h2 h3 h4
    have b1 : (s == "buster") = false := beq_eq_false_iff_ne.mpr h1
    have b2 : (s == "bullseye") = false := beq_eq_false_iff_ne.mpr h2
    have b3 : (s == "bookworm") = false := beq_eq_false_iff_ne.mpr h3
    have b4 : (s == "trixie") = false := beq_eq_false_iff_ne.mpr h4
    simp [next_debian_version, debian_versions, List.lookup, b1, b2, b3, b4]
  · intro exec t v clone ntn hq0 hq1 hd0 hd1 hv0 hv1 hve hvu hnext
    have hmb := mainBody_detect exec ⟨t, clone, ntn⟩ "debian" v hq0 hq1 hd0 hd1
      (by decide) (by decide) hv0 hv1 hve hvu
    have hdisp : mainDispatch exec ⟨t, clone, ntn⟩ "debian" v
        [Cmd.typeQvmLs, Cmd.featuresOsDistribution t, Cmd.featuresOsVersion t] =
        Except.error (Err.valueError "Unknown Debian version.",
          [Cmd.typeQvmLs, Cmd.featuresOsDistribution t, Cmd.featuresOsVersion t]) := by
      simp [mainDispatch, hnext]
    constructor
    · rw [mainRun]
      simp only [hmb, hdisp]
    · rw [mainRun]
      simp only [hmb, hdisp]
      intro c hc
      simp only [List.mem_cons, List.mem_singleton, List.not_mem_nil, or_false] at hc
      rcases hc with rfl | rfl | rfl <;> rfl

/-- Witness for C5: sid is not in the table and a Debian run detected at
version sid aborts after the probes. -/
theorem debian_succession_and_unknown_abort_witness :
    next_debian_version "sid" = "unknown" ∧
    mainRun execDebSid ⟨"deb", false, none⟩ =
      (1, [Cmd.typeQvmLs, Cmd.featuresOsDistribution "deb",
           Cmd.featuresOsVersion "deb"]) :=
  ⟨debian_succession_and_unknown_abort.2.1 "sid"
     (by decide) (by decide) (by decide) (by decide),
   (debian_succession_and_unknown_abort.2.2 execDebSid "deb" "sid" false none
     (by decide) (by decide) (by decide) (by decide) (by decide) (by decide)
     (by decide) (by decide) (by decide)).1⟩

/-- C6 (counterexample): the final codename trixie does not map to the
unknown sentinel, and a Debian run detected at trixie does not abort: it
exits 0 and issues the mutating repository rewrite substituting trixie with
fornextversion. -/
theorem trixie_no_abort_cex :
    next_debian_version "trixie" ≠ "unknown" ∧
    (mainRun execDebTrixie ⟨"deb", false, none⟩).1 = 0 ∧
    Cmd.sedSourcesList "deb" "trixie" "fornextversion" ∈
      (mainRun execDebTrixie ⟨"deb", false, none⟩).2 := by decide

/-- C6 (amended): planning maps trixie to the placeholder fornextversion,
which is not the unknown sentinel, so no planning error is raised: a Debian
run detected at trixie on which every command succeeds runs to completion,
exits 0, and rewrites the repository listings from trixie to
fornextversion. -/
theorem trixie_run_proceeds (exec : Executor) (t : String) (ntn : Option String)
    (hall : ∀ c, (exec c).returncode = 0)
    (hq1 : ¬pyStrip (exec Cmd.typeQvmLs).stdout = "")
    (hd1 : pyStrip (exec (Cmd.featuresOsDistribution t)).stdout = "debian")
    (hv1 : pyStrip (exec (Cmd.featuresOsVersion t)).stdout = "trixie") :
    next_debian_version "trixie" = "fornextversion" ∧
    mainRun exec ⟨t, false, ntn⟩ =
      (0, [Cmd.typeQvmLs, Cmd.featuresOsDistribution t, Cmd.featuresOsVersion t,
           Cmd.qvmStart t, Cmd.sedSourcesList t "trixie" "fornextversion",
           Cmd.aptFullUpgrade t, Cmd.fstrim t, Cmd.qvmShutdown t,
           Cmd.qubesPostInstall t]) := by
  refine ⟨rfl, ?_⟩
  have hmb := mainBody_detect exec ⟨t, false, ntn⟩ "debian" "trixie"
    (hall _) hq1 (hall _) hd1 (by decide) (by decide) (hall _) hv1
    (by decide) (by decide)
  have hnx : next_debian_version "trixie" = "fornextversion" := rfl
  have hun : (("fornextversion" : String) = "unknown") = False := by simp
  have htrue : (("debian" : String) = "debian") = True := by simp
  have hup := upgrade_debian_runSeq exec t false ntn "trixie" "fornextversion"
    [Cmd.typeQvmLs, Cmd.featuresOsDistribution t, Cmd.featuresOsVersion t]
    (by simp)
  have hseq := runSeq_ok exec hall (debianPlan t false ntn "trixie" "fornextversion")
    [Cmd.typeQvmLs, Cmd.featuresOsDistribution t, Cmd.featuresOsVersion t]
  simp only [debianPlan, Bool.false_eq_true, if_false, List.nil_append] at hseq
  have hch : ∀ L : List Cmd, change_qvm_features exec t ntn L =
      Except.ok (L ++ [Cmd.qubesPostInstall t]) := fun L => by
    simp [change_qvm_features, step_ok exec L _ (hall _)]
  rw [mainRun]
  simp only [hmb, mainDispatch, htrue, if_true, hnx, hun, if_false, hup, hseq, hch,
    debianPlan, Bool.false_eq_true, List.nil_append, List.append_assoc,
    List.cons_append, List.singleton_append]

/-- Witness for the amended C6 on a concrete all-success trixie run. -/
theorem trixie_run_proceeds_witness :
    next_debian_version "trixie" = "fornextversion" ∧
    mainRun execDebTrixie ⟨"deb", false, none⟩ =
      (0, [Cmd.typeQvmLs, Cmd.featuresOsDistribution "deb", Cmd.featuresOsVersion "deb",
           Cmd.qvmStart "deb", Cmd.sedSourcesList "deb" "trixie" "fornextversion",
           Cmd.aptFullUpgrade "deb", Cmd.fstrim "deb", Cmd.qvmShutdown "deb",
           Cmd.qubesPostInstall "deb"]) :=
  trixie_run_proceeds execDebTrixie "deb" none (fun c => by cases c <;> rfl)
    (by decide) (by decide) (by decide)

/-- C7: whenever the detected Fedora version token parses as the integer n,
the upgrade issues the distro-sync command with releasever n plus one, for
every n with no upper bound: without a clone the issued sequence is exactly
start, distro-sync at n plus one, shutdown, and with or without a clone the
distro-sync command at n plus one is among the issued commands. -/
theorem fedora_target_is_succ (exec : Executor) (template num : String) (n : Int)
    (ntn : Option String) (clone : Bool) (log : List Cmd)
    (hn : pyInt num = some n) (hall : ∀ c, (exec c).returncode = 0) :
    upgrade_fedora_template exec template false ntn num log =
      Except.ok (log ++ [Cmd.qvmStart template, Cmd.dnfDistroSync template (n + 1),
        Cmd.qvmShutdown template]) ∧
    Cmd.dnfDistroSync (if clone then pyStr ntn else template) (n + 1) ∈
      logOfRun (upgrade_fedora_template exec template clone ntn num log) := by
  constructor
  · rw [upgrade_fedora_runSeq exec template false ntn num n log hn,
      runSeq_ok exec hall]
    simp [fedoraPlan]
  · rw [upgrade_fedora_runSeq exec template clone ntn num n log hn,
      runSeq_ok exec hall]
    cases clone <;> simp [fedoraPlan, logOfRun]

/-- Witness for C7 at the token 38: the distro-sync command carries
releasever 39. -/
theorem fedora_target_is_succ_witness :
    upgrade_fedora_template execFedora38 "tmpl" false none "38" [] =
      Except.ok [Cmd.qvmStart "tmpl", Cmd.dnfDistroSync "tmpl" 39,
        Cmd.qvmShutdown "tmpl"] := by
  have h := (fedora_target_is_succ execFedora38 "tmpl" "38" 38 none false []
    (by decide) (fun c => by cases c <;> rfl)).1
  simpa using h

/-- C8: if family detection raises, or the detected family is neither debian
nor fedora, the run terminates with exit status 1 and every command it
issued is a read-only probe: no command with side effects is issued before
the family has resolved to a supported variant. -/
theorem unsupported_family_no_mutation (exec : Executor) (args : Args)
    (h : ∀ ty log0 log, get_template_type exec args.template log0 =
        Except.ok (ty, log) → ty ≠ "debian" ∧ ty ≠ "fedora") :
    (mainRun exec args).1 = 1 ∧
    ∀ c ∈ (mainRun exec args).2, c.mutating = false := by
  have step_t : ∀ (log0 : List Cmd) res,
      get_template_type exec args.template log0 = res →
      ∀ c ∈ logOfProbe res, c ∈ log0 ∨ c.mutating = false := by
    intro log0 res hres c hc
    rw [← hres, gtt_log] at hc
    exact gtt_probe_mem exec args.template log0 c hc
  have step_v : ∀ (log0 : List Cmd) res,
      get_template_version exec args.template log0 = res →
      ∀ c ∈ logOfProbe res, c ∈ log0 ∨ c.mutating = false := by
    intro log0 res hres c hc
    rw [← hres, gtv_log] at hc
    exact gtv_probe_mem exec args.template log0 c hc
  by_cases hq : (exec Cmd.typeQvmLs).returncode = 0
  · simp only [mainRun, mainBody, step_ok exec [] Cmd.typeQvmLs hq, List.nil_append]
    by_cases hout : pyStrip (exec Cmd.typeQvmLs).stdout = ""
    · simp only [hout, if_true]
      exact ⟨trivial, by
        intro c hc
        simp only [List.mem_singleton] at hc
        subst hc; rfl⟩
    · simp only [hout, if_false]
      rcases hg : get_template_type exec args.template [Cmd.typeQvmLs] with
        ⟨er, lg⟩ | ⟨ty, lg⟩ <;> simp only [hg]
      · refine ⟨trivial, ?_⟩
        intro c hc
        rcases step_t [Cmd.typeQvmLs] _ hg c hc with hm | hm
        · simp only [List.mem_singleton] at hm; subst hm; rfl
        · exact hm
      · rcases hv : get_template_version exec args.template lg with
          ⟨er2, lg2⟩ | ⟨v, lg2⟩ <;> simp only [hv]
        · refine ⟨trivial, ?_⟩
          intro c hc
          rcases step_v lg _ hv c hc with hm | hm
          · rcases step_t [Cmd.typeQvmLs] _ hg c hm with hm2 | hm2
            · simp only [List.mem_singleton] at hm2; subst hm2; rfl
            · exact hm2
          · exact hm
        · have hty := h ty [Cmd.typeQvmLs] lg hg
          have c1 : (ty = "debian") = False := by simp [hty.1]
          have c2 : (ty = "fedora") = False := by simp [hty.2]
          simp only [mainDispatch, c1, c2, if_false]
          refine ⟨trivial, ?_⟩
          intro c hc
          rcases step_v lg _ hv c hc with hm | hm
          · rcases step_t [Cmd.typeQvmLs] _ hg c hm with hm2 | hm2
            · simp only [List.mem_singleton] at hm2; subst hm2; rfl
            · exact hm2
          · exact hm
  · simp only [mainRun, mainBody, step_err exec [] Cmd.typeQvmLs hq, List.nil_append]
    exact ⟨trivial, by
      intro c hc
      simp only [List.mem_singleton] at hc
      subst hc; rfl⟩

/-- Witness for C8: a template of the unsupported arch family exits 1 with
only read-only probes issued. -/
theorem unsupported_family_no_mutation_witness :
    (mainRun execArch ⟨"t", false, none⟩).1 = 1 ∧
    ∀ c ∈ (mainRun execArch ⟨"t", false, none⟩).2, c.mutating = false :=
  unsupported_family_no_mutation execArch ⟨"t", false, none⟩
    (by
      intro ty log0 log hg
      rw [gtt_first_ok execArch "t" "arch" log0 (by decide) (by decide)
        (by decide) (by decide)] at hg
      have hty : "arch" = ty := congrArg Prod.fst (Except.ok.inj hg)
      constructor <;> (rw [← hty]; decide))

/-- C9 (counterexample): when the os-version feature answers the string
unknown, version detection raises at once, even
though the next probe would have answered 39: the claimed fall-through to
the first non-empty, non-unknown probe result does not happen, and the
failure is not caused by all probes being empty or failing. -/
theorem version_detection_unknown_first_cex :
    (execVerUnknown (Cmd.grepFedoraRelease "t")).returncode = 0 ∧
    pyStrip (execVerUnknown (Cmd.grepFedoraRelease "t")).stdout = "39" ∧
    get_template_version execVerUnknown "t" [] =
      Except.error
        (Err.valueError "Could not determine template version for t. It might be EOL.",
         [Cmd.featuresOsVersion "t"]) := by
  refine ⟨rfl, rfl, ?_⟩
  rfl

/-- C9 (amended): version detection advances to the next probe only while
the previous one returned empty output; it returns the first non-empty
stripped result provided that result is not the string unknown; it raises a
detection error when the first non-empty result equals unknown (at whichever
of the four probes it arrives), when any attempted probe exits non-zero (the
remaining probes are skipped), or when all four probes return empty. -/
theorem version_detection_behavior :
    (∀ (exec : Executor) (t v : String) (log : List Cmd),
       (exec (Cmd.featuresOsVersion t)).returncode = 0 →
       pyStrip (exec (Cmd.featuresOsVersion t)).stdout = v →
       v ≠ "" → v ≠ "unknown" →
       get_template_version exec t log =
         Except.ok (v, log ++ [Cmd.featuresOsVersion t])) ∧
    (∀ (exec : Executor) (t v : String) (log : List Cmd),
       (exec (Cmd.featuresOsVersion t)).returncode = 0 →
       pyStrip (exec (Cmd.featuresOsVersion t)).stdout = "" →
       (exec (Cmd.grepFedoraRelease t)).returncode = 0 →
       pyStrip (exec (Cmd.grepFedoraRelease t)).stdout = v →
       v ≠ "" → v ≠ "unknown" →
       get_template_version exec t log =
         Except.ok (v, log ++ [Cmd.featuresOsVersion t, Cmd.grepFedoraRelease t])) ∧
    (∀ (exec : Executor) (t v : String) (log : List Cmd),
       (exec (Cmd.featuresOsVersion t)).returncode = 0 →
       pyStrip (exec (Cmd.featuresOsVersion t)).stdout = "" →
       (exec (Cmd.grepFedoraRelease t)).returncode = 0 →
       pyStrip (exec (Cmd.grepFedoraRelease t)).stdout = "" →
       (exec (Cmd.grepVersionCodename t)).returncode = 0 →
       pyStrip (exec (Cmd.grepVersionCodename t)).stdout = v →
       v ≠ "" → v ≠ "unknown" →
       get_template_version exec t log =
         Except.ok (v, log ++ [Cmd.featuresOsVersion t, Cmd.grepFedoraRelease t,
           Cmd.grepVersionCodename t])) ∧
    (∀ (exec : Executor) (t v : String) (log : List Cmd),
       (exec (Cmd.featuresOsVersion t)).returncode = 0 →
       pyStrip (exec (Cmd.featuresOsVersion t)).stdout = "" →
       (exec (Cmd.grepFedoraRelease t)).returncode = 0 →
       pyStrip (exec (Cmd.grepFedoraRelease t)).stdout = "" →
       (exec (Cmd.grepVersionCodename t)).returncode = 0 →
       pyStrip (exec (Cmd.grepVersionCodename t)).stdout = "" →
       (exec (Cmd.catDebianVersion t)).returncode = 0 →
       pyStrip (exec (Cmd.catDebianVersion t)).stdout = v →
       v ≠ "" → v ≠ "unknown" →
       get_template_version exec t log =
         Except.ok (v, log ++ [Cmd.featuresOsVersion t, Cmd.grepFedoraRelease t,
           Cmd.grepVersionCodename t, Cmd.catDebianVersion t])) ∧
    (∀ (exec : Executor) (t : String) (log : List Cmd),
       (exec (Cmd.featuresOsVersion t)).returncode = 0 →
       pyStrip (exec (Cmd.featuresOsVersion t)).stdout = "" →
       (exec (Cmd.grepFedoraRelease t)).returncode = 0 →
       pyStrip (exec (Cmd.grepFedoraRelease t)).stdout = "" →
       (exec (Cmd.grepVersionCodename t)).returncode = 0 →
       pyStrip (exec (Cmd.grepVersionCodename t)).stdout = "" →
       (exec (Cmd.catDebianVersion t)).returncode = 0 →
       pyStrip (exec (Cmd.catDebianVersion t)).stdout = "" →
       get_template_version exec t log =
         Except.error
           (Err.valueError
             ("Could not determine template version for " ++ t ++ ". It might be EOL."),
            log ++ [Cmd.featuresOsVersion t, Cmd.grepFedoraRelease t,
              Cmd.grepVersionCodename t, Cmd.catDebianVersion t])) ∧
    (∀ (exec : Executor) (t : String) (log : List Cmd),
       (exec (Cmd.featuresOsVersion t)).returncode ≠ 0 →
       get_template_version exec t log =
         Except.error
           (Err.valueError
             ("Could not determine template version for " ++ t ++ ". It might be EOL."),
            log ++ [Cmd.featuresOsVersion t])) ∧
    (∀ (exec : Executor) (t : String) (log : List Cmd),
       (exec (Cmd.featuresOsVersion t)).returncode = 0 →
       pyStrip (exec (Cmd.featuresOsVersion t)).stdout = "" →
       (exec (Cmd.grepFedoraRelease t)).returncode ≠ 0 →
       get_template_version exec t log =
         Except.error
           (Err.valueError
             ("Could not determine template version for " ++ t ++ ". It might be EOL."),
            log ++ [Cmd.featuresOsVersion t, Cmd.grepFedoraRelease t])) ∧
    (∀ (exec : Executor) (t : String) (log : List Cmd),
       (exec (Cmd.featuresOsVersion t)).returncode = 0 →
       pyStrip (exec (Cmd.featuresOsVersion t)).stdout = "" →
       (exec (Cmd.grepFedoraRelease t)).returncode = 0 →
       pyStrip (exec (Cmd.grepFedoraRelease t)).stdout = "" →
       (exec (Cmd.grepVersionCodename t)).returncode ≠ 0 →
       get_template_version exec t log =
         Except.error
           (Err.valueError
             ("Could not determine template version for " ++ t ++ ". It might be EOL."),
            log ++ [Cmd.featuresOsVersion t, Cmd.grepFedoraRelease t,
              Cmd.grepVersionCodename t])) ∧
    (∀ (exec : Executor) (t : String) (log : List Cmd),
       (exec (Cmd.featuresOsVersion t)).returncode = 0 →
       pyStrip (exec (Cmd.featuresOsVersion t)).stdout = "" →
       (exec (Cmd.grepFedoraRelease t)).returncode = 0 →
       pyStrip (exec (Cmd.grepFedoraRelease t)).stdout = "" →
       (exec (Cmd.grepVersionCodename t)).returncode = 0 →
       pyStrip (exec (Cmd.grepVersionCodename t)).stdout = "" →
       (exec (Cmd.catDebianVersion t)).returncode ≠ 0 →
       get_template_version exec t log =
         Except.error
           (Err.valueError
             ("Could not determine template version for " ++ t ++ ". It might be EOL."),
            log ++ [Cmd.featuresOsVersion t, Cmd.grepFedoraRelease t,
              Cmd.grepVersionCodename t, Cmd.catDebianVersion t])) ∧
    (∀ (exec : Executor) (t : String) (log : List Cmd),
       (exec (Cmd.featuresOsVersion t)).returncode = 0 →
       pyStrip (exec (Cmd.featuresOsVersion t)).stdout = "unknown" →
       get_template_version exec t log =
         Except.error
           (Err.valueError
             ("Could not determine template version for " ++ t ++ ". It might be EOL."),
            log ++ [Cmd.featuresOsVersion t])) ∧
    (∀ (exec : Executor) (t : String) (log : List Cmd),
       (exec (Cmd.featuresOsVersion t)).returncode = 0 →
       pyStrip (exec (Cmd.featuresOsVersion t)).stdout = "" →
       (exec (Cmd.grepFedoraRelease t)).returncode = 0 →
       pyStrip (exec (Cmd.grepFedoraRelease t)).stdout = "unknown" →
       get_template_version exec t log =
         Except.error
           (Err.valueError
             ("Could not determine template version for " ++ t ++ ". It might be EOL."),
            log ++ [Cmd.featuresOsVersion t, Cmd.grepFedoraRelease t])) ∧
    (∀ (exec : Executor) (t : String) (log : List Cmd),
       (exec (Cmd.featuresOsVersion t)).returncode = 0 →
       pyStrip (exec (Cmd.featuresOsVersion t)).stdout = "" →
       (exec (Cmd.grepFedoraRelease t)).returncode = 0 →
       pyStrip (exec (Cmd.grepFedoraRelease t)).stdout = "" →
       (exec (Cmd.grepVersionCodename t)).returncode = 0 →
       pyStrip (exec (Cmd.grepVersionCodename t)).stdout = "unknown" →
       get_template_version exec t log =
         Except.error
           (Err.valueError
             ("Could not determine template version for " ++ t ++ ". It might be EOL."),
            log ++ [Cmd.featuresOsVersion t, Cmd.grepFedoraRelease t,
              Cmd.grepVersionCodename t])) ∧
    (∀ (exec : Executor) (t : String) (log : List Cmd),
       (exec (Cmd.featuresOsVersion t)).returncode = 0 →
       pyStrip (exec (Cmd.featuresOsVersion t)).stdout = "" →
       (exec (Cmd.grepFedoraRelease t)).returncode = 0 →
       pyStrip (exec (Cmd.grepFedoraRelease t)).stdout = "" →
       (exec (Cmd.grepVersionCodename t)).returncode = 0 →
       pyStrip (exec (Cmd.grepVersionCodename t)).stdout = "" →
       (exec (Cmd.catDebianVersion t)).returncode = 0 →
       pyStrip (exec (Cmd.catDebianVersion t)).stdout = "unknown" →
       get_template_version exec t log =
         Except.error
           (Err.valueError
             ("Could not determine template version for " ++ t ++ ". It might be EOL."),
            log ++ [Cmd.featuresOsVersion t, Cmd.grepFedoraRelease t,
              Cmd.grepVersionCodename t, Cmd.catDebianVersion t])) := by
  refine ⟨?_, ?_, ?_, ?_, ?_, ?_, ?_, ?_, ?_, ?_, ?_, ?_, ?_⟩
  · intro exec t v log h10 h11 hne hnu
    exact gtv_first_ok exec t v log h10 h11 hne hnu
  · intro exec t v log h10 h11 h20 h21 hne hnu
    simp [get_template_version, get_template_version_probe, run_command,
      h10, h11, h20, h21, hne, hnu]
  · intro exec t v log h10 h11 h20 h21 h30 h31 hne hnu
    simp [get_template_version, get_template_version_probe, run_command,
      h10, h11, h20, h21, h30, h31, hne, hnu]
  · intro exec t v log h10 h11 h20 h21 h30 h31 h40 h41 hne hnu
    simp [get_template_version, get_template_version_probe, run_command,
      h10, h11, h20, h21, h30, h31, h40, h41, hne, hnu]
  · intro exec t log h10 h11 h20 h21 h30 h31 h40 h41
    simp [get_template_version, get_template_version_probe, run_command,
      h10, h11, h20, h21, h30, h31, h40, h41]
  · intro exec t log h1f
    simp [get_template_version, get_template_version_probe, run_command, h1f]
  · intro exec t log h10 h11 h2f
    simp [get_template_version, get_template_version_probe, run_command,
      h10, h11, h2f]
  · intro exec t log h10 h11 h20 h21 h3f
    simp [get_template_version, get_template_version_probe, run_command,
      h10, h11, h20, h21, h3f]
  · intro exec t log h10 h11 h20 h21 h30 h31 h4f
    simp [get_template_version, get_template_version_probe, run_command,
      h10, h11, h20, h21, h30, h31, h4f]
  · intro exec t log h10 h11
    simp [get_template_version, get_template_version_probe, run_command,
      h10, h11]
  · intro exec t log h10 h11 h20 h21
    simp [get_template_version, get_template_version_probe, run_command,
      h10, h11, h20, h21]
  · intro exec t log h10 h11 h20 h21 h30 h31
    simp [get_template_version, get_template_version_probe, run_command,
      h10, h11, h20, h21, h30, h31]
  · intro exec t log h10 h11 h20 h21 h30 h31 h40 h41
    simp [get_template_version, get_template_version_probe, run_command,
      h10, h11, h20, h21, h30, h31, h40, h41]

/-- Witness for the amended C9: the feature probe answers 38 and detection
returns it having issued one probe. -/
theorem version_detection_behavior_witness :
    get_template_version execFedora38 "x" [] =
      Except.ok ("38", [Cmd.featuresOsVersion "x"]) := by
  have h := version_detection_behavior.1 execFedora38 "x" "38" []
    (by decide) (by decide) (by decide) (by decide)
  simpa using h

/-- C10: a Fedora run whose detected version token does not parse as an
integer raises before any phase command is issued: the run exits 1 having
issued only the three read-only probes, so nothing was mutated. -/
theorem fedora_nonnumeric_version_aborts (exec : Executor) (t v : String)
    (clone : Bool) (ntn : Option String)
    (hq0 : (exec Cmd.typeQvmLs).returncode = 0)
    (hq1 : ¬pyStrip (exec Cmd.typeQvmLs).stdout = "")
    (hd0 : (exec (Cmd.featuresOsDistribution t)).returncode = 0)
    (hd1 : pyStrip (exec (Cmd.featuresOsDistribution t)).stdout = "fedora")
    (hv0 : (exec (Cmd.featuresOsVersion t)).returncode = 0)
    (hv1 : pyStrip (exec (Cmd.featuresOsVersion t)).stdout = v)
    (hve : v ≠ "") (hvu : v ≠ "unknown")
    (hn : pyInt v = none) :
    mainRun exec ⟨t, clone, ntn⟩ =
      (1, [Cmd.typeQvmLs, Cmd.featuresOsDistribution t, Cmd.featuresOsVersion t]) ∧
    ∀ c ∈ (mainRun exec ⟨t, clone, ntn⟩).2, c.mutating = false := by
  have hmb := mainBody_detect exec ⟨t, clone, ntn⟩ "fedora" v hq0 hq1 hd0 hd1
    (by decide) (by decide) hv0 hv1 hve hvu
  have hdisp : mainDispatch exec ⟨t, clone, ntn⟩ "fedora" v
      [Cmd.typeQvmLs, Cmd.featuresOsDistribution t, Cmd.featuresOsVersion t] =
      Except.error
        (Err.valueError ("invalid literal for int() with base 10: " ++ v),
         [Cmd.typeQvmLs, Cmd.featuresOsDistribution t, Cmd.featuresOsVersion t]) := by
    simp [mainDispatch, upgrade_fedora_template, hn]
  constructor
  · rw [mainRun]
    simp only [hmb, hdisp]
  · rw [mainRun]
    simp only [hmb, hdisp]
    intro c hc
    simp only [List.mem_cons, List.mem_singleton, List.not_mem_nil, or_false] at hc
    rcases hc with rfl | rfl | rfl <;> rfl

/-- Witness for C10: a Fedora template whose version token is the codename
bullseye aborts after the three probes. -/
theorem fedora_nonnumeric_version_aborts_witness :
    mainRun execFedoraCodename ⟨"f", false, none⟩ =
      (1, [Cmd.typeQvmLs, Cmd.featuresOsDistribution "f",
           Cmd.featuresOsVersion "f"]) :=
  (fedora_nonnumeric_version_aborts execFedoraCodename "f" "bullseye" false none
    (by decide) (by decide) (by decide) (by decide) (by decide) (by decide)
    (by decide) (by decide) (by decide)).1
